import Mathlib

/-!
Shallow embedding of the Valorant 1v1 ban/pick admin client backend
(Rust, Tauri):

* `src-tauri/src/services/tournament_validation.rs` — the server-side
  action validator (`TournamentValidator`);
* `src-tauri/src/tournament_broadcast.rs` — the participant-facing state
  projection (`transform_for_players`, `get_available_options`);
* `src-tauri/src/services/player_manager.rs` — the participant registry
  (`PlayerManager`);
* `src-tauri/src/timer/{state,commands,service}.rs` — the shared timer.

Rust `HashMap`s are modelled as association lists with
lookup/insert/erase operations; machine integers (`i32`, `u32`, `u64`)
become `Int`/`Nat` (only comparisons on small values occur, so overflow
is irrelevant); Rust `Result`s become `Except`.
-/

namespace Valo

/-! ### Association-list model of `HashMap` -/

/-- First value stored under key `k`, like `HashMap::get`. -/
def lookupKV {α : Type} : List (String × α) → String → Option α
  | [], _ => none
  | (k2, v) :: t, k => if k2 = k then some v else lookupKV t k

/-- `HashMap::contains_key`. -/
def containsKV {α : Type} (l : List (String × α)) (k : String) : Bool :=
  (lookupKV l k).isSome

/-- Drop every entry with key `k`, like `HashMap::remove` on the state. -/
def eraseKV {α : Type} : List (String × α) → String → List (String × α)
  | [], _ => []
  | (k2, v) :: t, k => if k2 = k then eraseKV t k else (k2, v) :: eraseKV t k

/-- `HashMap::insert`: the new binding shadows and replaces any old one. -/
def insertKV {α : Type} (l : List (String × α)) (k : String) (v : α) : List (String × α) :=
  (k, v) :: eraseKV l k

/-- Decidable equality for `Except`, so concrete validator results can be
checked by `decide`. -/
instance {ε α : Type} [DecidableEq ε] [DecidableEq α] : DecidableEq (Except ε α) := fun a b =>
  match a, b with
  | .ok x, .ok y =>
    if h : x = y then isTrue (by rw [h]) else isFalse (by intro hc; cases hc; exact h rfl)
  | .error x, .error y =>
    if h : x = y then isTrue (by rw [h]) else isFalse (by intro hc; cases hc; exact h rfl)
  | .ok _, .error _ => isFalse (by intro hc; cases hc)
  | .error _, .ok _ => isFalse (by intro hc; cases hc)

/-! ### Data model (`tournament_service` types used by the validator) -/

/-- `AssetSelection { name, player }`. -/
structure AssetSelection where
  name : String
  player : String
  deriving DecidableEq, Repr

/-- `TournamentAction` history entry. -/
structure TournamentAction where
  action_number : Int
  player : String
  action_type : String
  selection : String
  timestamp : Nat
  deriving DecidableEq, Repr

/-- Admin-side `TournamentState`. `HashMap` fields are association lists. -/
structure TournamentState where
  current_phase : String
  current_player : Option String
  action_number : Int
  first_player : String
  event_started : Option Bool
  team_names : List (String × String)
  maps_banned : List AssetSelection
  maps_picked : List AssetSelection
  decider_map : Option String
  agents_banned : List AssetSelection
  agent_picks : List (String × Option String)
  timer_state : String
  timer_seconds : Int
  pending_selection : Option String
  revealed_actions : List Int
  action_history : List TournamentAction
  deriving DecidableEq, Repr

/-- `ValidationError` from `tournament_validation.rs`. -/
inductive ValidationError where
  | invalidPlayer (received expected : String)
  | notPlayerTurn (received current : String)
  | eventNotStarted
  | invalidPhase (action current_phase : String)
  | invalidActionNumber (received expected : Int)
  | assetNotFound (asset asset_type : String)
  | assetAlreadyBanned (asset player : String)
  | assetAlreadyPicked (asset player : String)
  | deciderNotFromPickedMaps (asset : String) (picked_maps : List String)
  | timerNotRunning (current_state : String)
  | actionAfterTimeExpired
  | unknownActionType (action : String)
  | tournamentCompleted
  deriving DecidableEq, Repr

/-- `ALL_MAPS` from `utils/constants.rs`. -/
def ALL_MAPS : List String :=
  ["abyss", "ascent", "bind", "breeze", "corrode", "fracture",
   "haven", "icebox", "lotus", "pearl", "split", "sunset"]

/-- `ALL_AGENTS` from `utils/constants.rs`. -/
def ALL_AGENTS : List String :=
  ["astra", "breach", "brimstone", "chamber", "clove", "cypher",
   "deadlock", "fade", "gekko", "harbor", "iso", "jett", "kayo",
   "killjoy", "neon", "omen", "phoenix", "raze", "reyna", "sage",
   "skye", "sova", "tejo", "viper", "vyse", "waylay", "yoru"]

namespace TournamentValidator

/-- `TournamentValidator::get_expected_action_type`. Rust `match` on the
phase string and integer range checks rendered as `if` chains. -/
def get_expected_action_type (s : TournamentState) : String :=
  if s.current_phase = "MAP_PHASE" then
    if s.action_number ≤ 6 then "MAP_BAN"
    else if s.action_number ≤ 8 then "MAP_PICK"
    else if s.action_number = 9 then "DECIDER"
    else "UNKNOWN"
  else if s.current_phase = "AGENT_PHASE" then
    if s.action_number ≤ 15 then "AGENT_BAN"
    else if s.action_number ≤ 17 then "AGENT_PICK"
    else "UNKNOWN"
  else "UNKNOWN"

/-- `TournamentValidator::validate_asset_selection`. The Rust `for` loops
that report the first offending entry become `List.find?`. -/
def validate_asset_selection (s : TournamentState) (action_type selection : String) :
    Except ValidationError Unit :=
  if action_type = "MAP_BAN" ∨ action_type = "MAP_PICK" then
    if ¬ ALL_MAPS.contains selection then
      .error (.assetNotFound selection "map")
    else
      match s.maps_banned.find? (fun banned => banned.name == selection) with
      | some banned => .error (.assetAlreadyBanned selection banned.player)
      | none =>
        match s.maps_picked.find? (fun picked => picked.name == selection) with
        | some picked => .error (.assetAlreadyPicked selection picked.player)
        | none => .ok ()
  else if action_type = "DECIDER" then
    let picked_map_names : List String := s.maps_picked.map (fun pick => pick.name)
    if ¬ picked_map_names.contains selection then
      .error (.deciderNotFromPickedMaps selection picked_map_names)
    else .ok ()
  else if action_type = "AGENT_BAN" ∨ action_type = "AGENT_PICK" then
    if ¬ ALL_AGENTS.contains selection then
      .error (.assetNotFound selection "agent")
    else
      match s.agents_banned.find? (fun banned => banned.name == selection) with
      | some banned => .error (.assetAlreadyBanned selection banned.player)
      | none =>
        match s.agent_picks.find? (fun kv => kv.2 == some selection) with
        | some kv => .error (.assetAlreadyPicked selection kv.1)
        | none => .ok ()
  else
    .error (.unknownActionType action_type)

/-- `TournamentValidator::validate_player_action`. The Rust early
returns become nested `if`/`match`; the `timer_state == "ready"` branch
only logs in the source, so it contributes nothing here. -/
def validate_player_action (s : TournamentState) (player_id action selection : String) :
    Except ValidationError Unit :=
  if s.event_started ≠ some true then
    .error .eventNotStarted
  else if s.current_phase = "CONCLUSION" then
    .error .tournamentCompleted
  else
    match s.current_player with
    | some current_player =>
      if current_player ≠ player_id then
        .error (.notPlayerTurn player_id current_player)
      else
        let expected_action := get_expected_action_type s
        if action = "BAN" then
          if ¬ (expected_action = "MAP_BAN" ∨ expected_action = "AGENT_BAN") then
            .error (.invalidPhase action s.current_phase)
          else validate_asset_selection s expected_action selection
        else if action = "PICK" then
          if ¬ (expected_action = "MAP_PICK" ∨ expected_action = "AGENT_PICK") then
            .error (.invalidPhase action s.current_phase)
          else validate_asset_selection s expected_action selection
        else if action = "DECIDER" then
          if expected_action ≠ "DECIDER" then
            .error (.invalidPhase action s.current_phase)
          else validate_asset_selection s expected_action selection
        else
          .error (.unknownActionType action)
    | none =>
      .error (.invalidPlayer player_id "valid player")

end TournamentValidator

/-! ### State projection (`tournament_broadcast.rs`) -/

/-- `PlayerAsset { name, player }`. -/
structure PlayerAsset where
  name : String
  player : String
  deriving DecidableEq, Repr

/-- `MapState` of the participant view. -/
structure MapState where
  banned : List PlayerAsset
  picked : List PlayerAsset
  decider : Option String
  deriving DecidableEq, Repr

/-- `AgentState` of the participant view. -/
structure AgentState where
  banned : List PlayerAsset
  p1_pick : Option String
  p2_pick : Option String
  deriving DecidableEq, Repr

/-- `PlayerAction` of the participant view. -/
structure PlayerAction where
  player : String
  action : String
  selection : String
  timestamp : Nat
  deriving DecidableEq, Repr

/-- `PlayerGameState`: the participant-facing projection of the admin state. -/
structure PlayerGameState where
  phase : String
  current_player : Option String
  current_action : Option String
  maps : Option MapState
  agents : Option AgentState
  action_history : Option (List PlayerAction)
  timer_state : String
  time_remaining : Int
  team_names : Option (List (String × String))
  turn_number : Int
  deriving DecidableEq, Repr

/-- `transform_for_players` from `tournament_broadcast.rs`. -/
def transform_for_players (admin_state : TournamentState) : PlayerGameState :=
  let phase : String :=
    if admin_state.current_phase = "MAP_PHASE" then
      if admin_state.action_number ≤ 6 then "MAP_BAN"
      else if admin_state.action_number ≤ 8 then "MAP_PICK"
      else if admin_state.action_number = 9 then "DECIDER"
      else "MAP_PHASE"
    else if admin_state.current_phase = "AGENT_PHASE" then
      if admin_state.action_number ≤ 15 then "AGENT_BAN"
      else "AGENT_PICK"
    else admin_state.current_phase
  let current_action : Option String :=
    if phase = "MAP_BAN" ∨ phase = "AGENT_BAN" then some "BAN"
    else if phase = "MAP_PICK" ∨ phase = "AGENT_PICK" then some "PICK"
    else if phase = "DECIDER" then some "DECIDER"
    else none
  let maps : Option MapState :=
    some
      { banned := admin_state.maps_banned.map (fun asset => ⟨asset.name, asset.player⟩)
        picked := admin_state.maps_picked.map (fun asset => ⟨asset.name, asset.player⟩)
        decider := admin_state.decider_map }
  let agents : Option AgentState :=
    some
      { banned := admin_state.agents_banned.map (fun asset => ⟨asset.name, asset.player⟩)
        p1_pick := (lookupKV admin_state.agent_picks "P1").bind id
        p2_pick := (lookupKV admin_state.agent_picks "P2").bind id }
  let action_history : Option (List PlayerAction) :=
    some
      (admin_state.action_history.map (fun action =>
        let action_type : String :=
          if action.action_type = "MAP_BAN" ∨ action.action_type = "AGENT_BAN" then "BAN"
          else if action.action_type = "MAP_PICK" ∨ action.action_type = "AGENT_PICK" then "PICK"
          else if action.action_type = "DECIDER" then "DECIDER"
          else "BAN"
        ⟨action.player, action_type, action.selection, action.timestamp⟩))
  { phase := phase
    current_player := admin_state.current_player
    current_action := current_action
    maps := maps
    agents := agents
    action_history := action_history
    timer_state := admin_state.timer_state
    time_remaining := admin_state.timer_seconds
    team_names := some admin_state.team_names
    turn_number := admin_state.action_number }

/-- `get_available_options` from `tournament_broadcast.rs`. The local
`all_maps` / `all_agents` vectors of the source are the same literals as
the constants in `utils/constants.rs`. -/
def get_available_options (admin_state : TournamentState) : List String :=
  let all_maps : List String :=
    ["abyss", "ascent", "bind", "breeze", "corrode", "fracture",
     "haven", "icebox", "lotus", "pearl", "split", "sunset"]
  let all_agents : List String :=
    ["astra", "breach", "brimstone", "chamber", "clove", "cypher",
     "deadlock", "fade", "gekko", "harbor", "iso", "jett", "kayo",
     "killjoy", "neon", "omen", "phoenix", "raze", "reyna", "sage",
     "skye", "sova", "tejo", "viper", "vyse", "waylay", "yoru"]
  if admin_state.current_phase = "MAP_PHASE" then
    if admin_state.action_number = 9 then
      admin_state.maps_picked.map (fun pick => pick.name)
    else
      let banned : List String := admin_state.maps_banned.map (fun ban => ban.name)
      let picked : List String := admin_state.maps_picked.map (fun pick => pick.name)
      all_maps.filter (fun map =>
        !(banned.any (fun b => b == map)) && !(picked.any (fun p => p == map)))
  else if admin_state.current_phase = "AGENT_PHASE" then
    let banned : List String := admin_state.agents_banned.map (fun ban => ban.name)
    let picked : List String := admin_state.agent_picks.filterMap (fun kv => kv.2)
    all_agents.filter (fun agent =>
      !(banned.any (fun b => b == agent)) && !(picked.any (fun p => p == agent)))
  else []

/-! ### Participant registry (`player_manager.rs`) -/

/-- `PlayerInfo`. `connection_time` comes from the wall clock in the
source; here the caller passes it in as `now`. -/
structure PlayerInfo where
  name : String
  socket_id : String
  player_id : Option String
  connected : Bool
  connection_time : Nat
  deriving DecidableEq, Repr

/-- `PlayerManager`: `players` maps socket id to record, `assignments`
maps role ("P1"/"P2") to socket id. -/
structure PlayerManager where
  players : List (String × PlayerInfo)
  assignments : List (String × String)
  deriving DecidableEq, Repr

namespace PlayerManager

/-- `PlayerManager::new`. -/
def new : PlayerManager := { players := [], assignments := [] }

/-- `PlayerManager::add_player`. Returns the Rust result together with
the registry state after the call (unchanged on error). -/
def add_player (pm : PlayerManager) (name socket_id : String) (now : Nat) :
    Except String PlayerInfo × PlayerManager :=
  if containsKV pm.players socket_id then
    (.error "Socket already connected", pm)
  else
    let player_id : Option String :=
      if ¬ containsKV pm.assignments "P1" then some "P1"
      else if ¬ containsKV pm.assignments "P2" then some "P2"
      else none
    match player_id with
    | none => (.error "Tournament is full (2 players maximum)", pm)
    | some pid =>
      let player_info : PlayerInfo :=
        { name := name, socket_id := socket_id, player_id := some pid,
          connected := true, connection_time := now }
      (.ok player_info,
       { players := insertKV pm.players socket_id player_info,
         assignments := insertKV pm.assignments pid socket_id })

/-- `PlayerManager::remove_player_by_socket`. -/
def remove_player_by_socket (pm : PlayerManager) (socket_id : String) :
    Option PlayerInfo × PlayerManager :=
  match lookupKV pm.players socket_id with
  | none => (none, pm)
  | some player =>
    let assignments2 : List (String × String) :=
      match player.player_id with
      | some player_id => eraseKV pm.assignments player_id
      | none => pm.assignments
    (some player, { players := eraseKV pm.players socket_id, assignments := assignments2 })

/-- `PlayerManager::disconnect_all_players`. -/
def disconnect_all_players (_pm : PlayerManager) : PlayerManager :=
  { players := [], assignments := [] }

/-- Registry states reachable from a fresh `PlayerManager` by any
sequence of `add_player`, `remove_player_by_socket` and
`disconnect_all_players` calls. -/
inductive Reachable : PlayerManager → Prop where
  | new : Reachable PlayerManager.new
  | add (pm : PlayerManager) (name socket_id : String) (now : Nat) :
      Reachable pm → Reachable (add_player pm name socket_id now).2
  | remove (pm : PlayerManager) (socket_id : String) :
      Reachable pm → Reachable (remove_player_by_socket pm socket_id).2
  | disconnectAll (pm : PlayerManager) :
      Reachable pm → Reachable (disconnect_all_players pm)

/-- The registry's role bookkeeping is mutually consistent: every stored
record carrying a role is the target of that role's assignment entry,
and every assignment entry points at a stored record carrying that
role. -/
def RolesOk (pm : PlayerManager) : Prop :=
  (∀ sock p role, lookupKV pm.players sock = some p → p.player_id = some role →
    lookupKV pm.assignments role = some sock) ∧
  (∀ role sock, lookupKV pm.assignments role = some sock →
    ∃ p, lookupKV pm.players sock = some p ∧ p.player_id = some role)

/-- Run a sequence of `add_player` calls (all with `now = 0`) and
collect the individual results. -/
def add_results : PlayerManager → List (String × String) → List (Except String PlayerInfo)
  | _, [] => []
  | pm, (name, sock) :: t =>
    let r := add_player pm name sock 0
    r.1 :: add_results r.2 t

end PlayerManager

/-! ### Shared timer (`timer/state.rs`, `timer/commands.rs`, `timer/service.rs`) -/

/-- `TimerStatus`. -/
inductive TimerStatus where
  | ready
  | running
  | paused
  | finished
  deriving DecidableEq, Repr

/-- The `{:?}` rendering of a `TimerStatus`, used in command error
messages. -/
def TimerStatus.debugName : TimerStatus → String
  | .ready => "Ready"
  | .running => "Running"
  | .paused => "Paused"
  | .finished => "Finished"

/-- `TimerSnapshot`. -/
structure TimerSnapshot where
  status : TimerStatus
  seconds : Nat
  initial_seconds : Nat
  deriving DecidableEq, Repr

/-- `TimerState`. The `tokio::sync::watch` stop channel is modelled by
`stop_generation` (the identity of the current channel: bumped whenever
a fresh channel pair is installed) and `stop_flag` (whether the current
channel has been signalled). -/
structure TimerState where
  status : TimerStatus
  seconds : Nat
  initial_seconds : Nat
  stop_generation : Nat
  stop_flag : Bool
  deriving DecidableEq, Repr

namespace TimerState

/-- `TimerState::new`. -/
def new (initial_seconds : Nat) : TimerState :=
  { status := .ready, seconds := initial_seconds, initial_seconds := initial_seconds,
    stop_generation := 0, stop_flag := false }

/-- `TimerState::snapshot`. -/
def snapshot (s : TimerState) : TimerSnapshot :=
  { status := s.status, seconds := s.seconds, initial_seconds := s.initial_seconds }

/-- `TimerState::send_stop_signal`: signals the current channel. -/
def send_stop_signal (s : TimerState) : TimerState :=
  { s with stop_flag := true }

/-- `TimerState::reset`: stop the old loop, go `Ready` with the new (or
previous) duration, and install a fresh stop channel. -/
def reset (s : TimerState) (seconds : Option Nat) : TimerState :=
  let s1 := s.send_stop_signal
  let new_seconds := seconds.getD s1.initial_seconds
  { status := .ready, seconds := new_seconds, initial_seconds := new_seconds,
    stop_generation := s1.stop_generation + 1, stop_flag := false }

end TimerState

/-- `start_timer` command: state validation plus the `Running`
transition (event emission and the spawned loop are outside the state). -/
def start_timer (s : TimerState) : Except String TimerSnapshot × TimerState :=
  if s.status ≠ .ready ∧ s.status ≠ .paused then
    (.error ("Cannot start timer in " ++ s.status.debugName ++
             " state. Must be \x27ready\x27 or \x27paused\x27."), s)
  else
    let s2 := { s with status := .running }
    (.ok s2.snapshot, s2)

/-- `pause_timer` command. -/
def pause_timer (s : TimerState) : Except String TimerSnapshot × TimerState :=
  if s.status ≠ .running then
    (.error ("Cannot pause timer in " ++ s.status.debugName ++
             " state. Must be \x27running\x27."), s)
  else
    let s2 := { s.send_stop_signal with status := .paused }
    (.ok s2.snapshot, s2)

/-- `reset_timer` command: always succeeds. -/
def reset_timer (s : TimerState) (seconds : Option Nat) :
    Except String TimerSnapshot × TimerState :=
  let s2 := s.reset seconds
  (.ok s2.snapshot, s2)

/-- Events the timer loop can emit. -/
inductive TickEvent where
  | tickEmit (snap : TimerSnapshot)
  | finishedEmit
  deriving DecidableEq, Repr

/-- One `ticker.tick()` iteration of `run_timer_loop`: returns the new
timer state, the events emitted during the iteration, and whether the
loop breaks. -/
def timer_tick (s : TimerState) : TimerState × List TickEvent × Bool :=
  if s.status ≠ .running then
    (s, [], true)
  else if s.seconds > 0 then
    let s1 := { s with seconds := s.seconds - 1 }
    let s2 := if s1.seconds = 0 then { s1 with status := .finished } else s1
    if s2.seconds = 0 then
      (s2, [.tickEmit s2.snapshot, .finishedEmit], true)
    else
      (s2, [.tickEmit s2.snapshot], false)
  else
    (s, [], false)

/-- Run up to `n` tick iterations of the loop, stopping early on break;
accumulates all emitted events. -/
def run_ticks : Nat → TimerState → TimerState × List TickEvent × Bool
  | 0, s => (s, [], false)
  | n + 1, s =>
    match timer_tick s with
    | (s1, evs, true) => (s1, evs, true)
    | (s1, evs, false) =>
      let r := run_ticks n s1
      (r.1, evs ++ r.2.1, r.2.2)

/-- The `create_test_tournament_state` fixture from the validator's unit
tests: `MAP_PHASE`, action 1, `P1` to act, event started. -/
def testState : TournamentState :=
  { current_phase := "MAP_PHASE"
    current_player := some "P1"
    action_number := 1
    first_player := "P1"
    event_started := some true
    team_names := []
    maps_banned := []
    maps_picked := []
    decider_map := none
    agents_banned := []
    agent_picks := []
    timer_state := "running"
    timer_seconds := 30
    pending_selection := none
    revealed_actions := []
    action_history := [] }

/-! ### Association-list lemmas -/

@[simp]
theorem lookupKV_nil {α : Type} (k : String) : lookupKV ([] : List (String × α)) k = none := rfl

@[simp]
theorem lookupKV_cons {α : Type} (k2 : String) (v : α) (t : List (String × α)) (k : String) :
    lookupKV ((k2, v) :: t) k = if k2 = k then some v else lookupKV t k := rfl

@[simp]
theorem lookupKV_eraseKV {α : Type} (l : List (String × α)) (k k2 : String) :
    lookupKV (eraseKV l k) k2 = if k2 = k then none else lookupKV l k2 := by
  induction l with
  | nil => simp [eraseKV]
  | cons hd t ih =>
    obtain ⟨hk, hv⟩ := hd
    by_cases h1 : hk = k <;> by_cases h2 : hk = k2 <;>
      simp_all [eraseKV]

@[simp]
theorem lookupKV_insertKV {α : Type} (l : List (String × α)) (k k2 : String) (v : α) :
    lookupKV (insertKV l k v) k2 = if k2 = k then some v else lookupKV l k2 := by
  simp only [insertKV, lookupKV_cons, lookupKV_eraseKV]
  by_cases h : k2 = k
  · simp [h]
  · rw [if_neg (fun hc => h hc.symm), if_neg h, if_neg h]

@[simp]
theorem containsKV_iff {α : Type} (l : List (String × α)) (k : String) :
    containsKV l k = true ↔ ∃ v, lookupKV l k = some v := by
  simp [containsKV, Option.isSome_iff_exists]

theorem containsKV_false {α : Type} (l : List (String × α)) (k : String)
    (h : containsKV l k = false) : lookupKV l k = none := by
  cases hl : lookupKV l k with
  | none => rfl
  | some v => rw [containsKV, hl] at h; simp at h

example : TournamentValidator.validate_player_action testState "P1" "BAN" "bind" = .ok () := by
  decide

example : TournamentValidator.validate_player_action testState "P2" "BAN" "bind" =
    .error (.notPlayerTurn "P2" "P1") := by decide

example : TournamentValidator.validate_player_action
    { testState with maps_banned := [⟨"bind", "P1"⟩] } "P1" "BAN" "bind" =
    .error (.assetAlreadyBanned "bind" "P1") := by decide

/-! ### Validator theorems -/

/-- C1 counterexample: in `MAP_PHASE` with `actionNumber = 0` — outside
every row of the claimed table — the code computes `MAP_BAN`, not
`UNKNOWN`, and a `BAN` of `"bind"` is accepted rather than failing. -/
theorem expected_kind_zero_counterexample :
    TournamentValidator.get_expected_action_type { testState with action_number := 0 } =
      "MAP_BAN" ∧
    TournamentValidator.validate_player_action
      { testState with action_number := 0 } "P1" "BAN" "bind" = .ok () := by
  constructor <;> decide

/-- C1 (amended): with the event started, the phase not `CONCLUSION` and
the submitter holding the turn, the expected kind is computed as:
`MAP_PHASE` with `actionNumber ≤ 6` gives `MAP_BAN`, `7-8` gives
`MAP_PICK`, `9` gives `DECIDER`, `≥ 10` gives `UNKNOWN`; `AGENT_PHASE`
with `actionNumber ≤ 15` gives `AGENT_BAN`, `16-17` gives `AGENT_PICK`,
`≥ 18` gives `UNKNOWN`; any other phase gives `UNKNOWN`. A submitted
`BAN` is accepted (passed to asset validation) exactly when the expected
kind is `MAP_BAN` or `AGENT_BAN`, `PICK` exactly for `MAP_PICK` or
`AGENT_PICK`, `DECIDER` exactly for `DECIDER`, any mismatch failing with
`InvalidPhase{action, currentPhase}` (so `UNKNOWN` always fails); any
other submitted kind fails with `UnknownActionType`. -/
theorem validate_action_kind_table (s : TournamentState) (r a sel : String)
    (hev : s.event_started = some true)
    (hph : s.current_phase ≠ "CONCLUSION")
    (hcp : s.current_player = some r) :
    (s.current_phase = "MAP_PHASE" →
      (s.action_number ≤ 6 →
        TournamentValidator.get_expected_action_type s = "MAP_BAN") ∧
      (7 ≤ s.action_number → s.action_number ≤ 8 →
        TournamentValidator.get_expected_action_type s = "MAP_PICK") ∧
      (s.action_number = 9 →
        TournamentValidator.get_expected_action_type s = "DECIDER") ∧
      (10 ≤ s.action_number →
        TournamentValidator.get_expected_action_type s = "UNKNOWN")) ∧
    (s.current_phase = "AGENT_PHASE" →
      (s.action_number ≤ 15 →
        TournamentValidator.get_expected_action_type s = "AGENT_BAN") ∧
      (16 ≤ s.action_number → s.action_number ≤ 17 →
        TournamentValidator.get_expected_action_type s = "AGENT_PICK") ∧
      (18 ≤ s.action_number →
        TournamentValidator.get_expected_action_type s = "UNKNOWN")) ∧
    (s.current_phase ≠ "MAP_PHASE" → s.current_phase ≠ "AGENT_PHASE" →
      TournamentValidator.get_expected_action_type s = "UNKNOWN") ∧
    (¬ (TournamentValidator.get_expected_action_type s = "MAP_BAN" ∨
        TournamentValidator.get_expected_action_type s = "AGENT_BAN") →
      TournamentValidator.validate_player_action s r "BAN" sel =
        .error (.invalidPhase "BAN" s.current_phase)) ∧
    ((TournamentValidator.get_expected_action_type s = "MAP_BAN" ∨
      TournamentValidator.get_expected_action_type s = "AGENT_BAN") →
      TournamentValidator.validate_player_action s r "BAN" sel =
        TournamentValidator.validate_asset_selection s
          (TournamentValidator.get_expected_action_type s) sel) ∧
    (¬ (TournamentValidator.get_expected_action_type s = "MAP_PICK" ∨
        TournamentValidator.get_expected_action_type s = "AGENT_PICK") →
      TournamentValidator.validate_player_action s r "PICK" sel =
        .error (.invalidPhase "PICK" s.current_phase)) ∧
    ((TournamentValidator.get_expected_action_type s = "MAP_PICK" ∨
      TournamentValidator.get_expected_action_type s = "AGENT_PICK") →
      TournamentValidator.validate_player_action s r "PICK" sel =
        TournamentValidator.validate_asset_selection s
          (TournamentValidator.get_expected_action_type s) sel) ∧
    (TournamentValidator.get_expected_action_type s ≠ "DECIDER" →
      TournamentValidator.validate_player_action s r "DECIDER" sel =
        .error (.invalidPhase "DECIDER" s.current_phase)) ∧
    (TournamentValidator.get_expected_action_type s = "DECIDER" →
      TournamentValidator.validate_player_action s r "DECIDER" sel =
        TournamentValidator.validate_asset_selection s "DECIDER" sel) ∧
    (a ≠ "BAN" → a ≠ "PICK" → a ≠ "DECIDER" →
      TournamentValidator.validate_player_action s r a sel =
        .error (.unknownActionType a)) := by
  have hev2 : ¬ s.event_started ≠ some true := by simp [hev]
  refine ⟨?_, ?_, ?_, ?_, ?_, ?_, ?_, ?_, ?_, ?_⟩
  · intro hmp
    refine ⟨?_, ?_, ?_, ?_⟩
    · intro h
      simp [TournamentValidator.get_expected_action_type, hmp, h]
    · intro h7 h8
      simp [TournamentValidator.get_expected_action_type, hmp]
      rw [if_neg (by omega), if_pos h8]
    · intro h9
      simp [TournamentValidator.get_expected_action_type, hmp]
      rw [if_neg (by omega), if_neg (by omega), if_pos h9]
    · intro h10
      simp [TournamentValidator.get_expected_action_type, hmp]
      rw [if_neg (by omega), if_neg (by omega), if_neg (by omega)]
  · intro hap
    have hmp : ¬ s.current_phase = "MAP_PHASE" := by simp [hap]
    refine ⟨?_, ?_, ?_⟩
    · intro h
      simp [TournamentValidator.get_expected_action_type, hmp, hap, h]
    · intro h16 h17
      simp [TournamentValidator.get_expected_action_type, hmp, hap]
      rw [if_neg (by omega), if_pos h17]
    · intro h18
      simp [TournamentValidator.get_expected_action_type, hmp, hap]
      rw [if_neg (by omega), if_neg (by omega)]
  · intro h1 h2
    simp [TournamentValidator.get_expected_action_type, h1, h2]
  · intro hexp
    simp [TournamentValidator.validate_player_action, hev2, hph, hcp, hexp]
  · intro hexp
    simp [TournamentValidator.validate_player_action, hev2, hph, hcp, hexp]
  · intro hexp
    simp [TournamentValidator.validate_player_action, hev2, hph, hcp, hexp]
  · intro hexp
    simp [TournamentValidator.validate_player_action, hev2, hph, hcp, hexp]
  · intro hexp
    simp [TournamentValidator.validate_player_action, hev2, hph, hcp, hexp]
  · intro hexp
    simp [TournamentValidator.validate_player_action, hev2, hph, hcp, hexp]
  · intro h1 h2 h3
    simp [TournamentValidator.validate_player_action, hev2, hph, hcp, h1, h2, h3]

/-- C1 witness: in the test fixture (`MAP_PHASE`, action 1) the expected
kind is `MAP_BAN` and a submitted `PICK` fails with `InvalidPhase`. -/
theorem validate_action_kind_table_witness :
    TournamentValidator.get_expected_action_type testState = "MAP_BAN" ∧
    TournamentValidator.validate_player_action testState "P1" "PICK" "bind" =
      .error (.invalidPhase "PICK" "MAP_PHASE") ∧
    TournamentValidator.validate_player_action testState "P1" "FOO" "bind" =
      .error (.unknownActionType "FOO") :=
  ⟨((validate_action_kind_table testState "P1" "FOO" "bind" rfl (by decide) rfl).1
      rfl).1 (by decide),
   (validate_action_kind_table testState "P1" "FOO" "bind" rfl (by decide)
      rfl).2.2.2.2.2.1 (by decide),
   (validate_action_kind_table testState "P1" "FOO" "bind" rfl (by decide)
      rfl).2.2.2.2.2.2.2.2.2 (by decide) (by decide) (by decide)⟩

/-- C2 counterexample: with `currentTurnRole = None` the code rejects
with `InvalidPlayer{received, "valid player"}`, not with
`NotPlayerTurn`. -/
theorem no_current_player_counterexample :
    TournamentValidator.validate_player_action
      { testState with current_player := none } "P1" "BAN" "bind" =
      .error (.invalidPlayer "P1" "valid player") := by
  decide

/-- C2 (amended): with the event started and the phase not `CONCLUSION`,
a submission by role `r` when `currentTurnRole = Some c` with `c ≠ r`
fails with `NotPlayerTurn{received: r, current: c}` regardless of the
submitted kind and asset; when `currentTurnRole = None` it instead fails
with `InvalidPlayer{received: r, expected: "valid player"}`. -/
theorem not_player_turn_spec (s : TournamentState) (r a sel : String)
    (hev : s.event_started = some true)
    (hph : s.current_phase ≠ "CONCLUSION") :
    (∀ c, s.current_player = some c → c ≠ r →
      TournamentValidator.validate_player_action s r a sel =
        .error (.notPlayerTurn r c)) ∧
    (s.current_player = none →
      TournamentValidator.validate_player_action s r a sel =
        .error (.invalidPlayer r "valid player")) := by
  have hev2 : ¬ s.event_started ≠ some true := by simp [hev]
  constructor
  · intro c hc hne
    simp [TournamentValidator.validate_player_action, hev2, hph, hc, hne]
  · intro hc
    simp [TournamentValidator.validate_player_action, hev2, hph, hc]

/-- C2 witness: with `P2` holding the turn, a `BAN` submitted by `P1`
fails with `NotPlayerTurn{received: "P1", current: "P2"}`. -/
theorem not_player_turn_spec_witness :
    TournamentValidator.validate_player_action
      { testState with current_player := some "P2" } "P1" "BAN" "bind" =
      .error (.notPlayerTurn "P1" "P2") :=
  (not_player_turn_spec { testState with current_player := some "P2" }
    "P1" "BAN" "bind" rfl (by decide)).1 "P2" rfl (by decide)

/-- C4 counterexample: with `"bind"` banned by `P1` and `P1` holding the
turn, a `BAN` of `"bind"` submitted by the *other* role `P2` fails with
`NotPlayerTurn`, not with `AssetAlreadyBanned{asset: "bind",
player: "P1"}`. -/
theorem duplicate_ban_turn_counterexample :
    TournamentValidator.validate_player_action
      { testState with maps_banned := [⟨"bind", "P1"⟩] } "P2" "BAN" "bind" =
      .error (.notPlayerTurn "P2" "P1") := by
  decide

/-- C4 (amended): with the event started, phase `MAP_PHASE` with
`actionNumber ≤ 6` (so a map ban is expected), the submitting role `r`
holding the turn, and `{name: "bind", player: "P1"}` the first
`mapsBanned` entry named `"bind"`, validating a `BAN` of `"bind"` by `r`
fails with `AssetAlreadyBanned{asset: "bind", player: "P1"}`. -/
theorem duplicate_ban_spec (s : TournamentState) (r : String)
    (hev : s.event_started = some true)
    (hph : s.current_phase = "MAP_PHASE")
    (hact : s.action_number ≤ 6)
    (hcp : s.current_player = some r)
    (hban : s.maps_banned.find? (fun banned => banned.name == "bind") =
      some ⟨"bind", "P1"⟩) :
    TournamentValidator.validate_player_action s r "BAN" "bind" =
      .error (.assetAlreadyBanned "bind" "P1") := by
  have hev2 : ¬ s.event_started ≠ some true := by simp [hev]
  have hconc : s.current_phase ≠ "CONCLUSION" := by simp [hph]
  have hexp : TournamentValidator.get_expected_action_type s = "MAP_BAN" := by
    simp [TournamentValidator.get_expected_action_type, hph, hact]
  simp [TournamentValidator.validate_player_action, hev2, hconc, hcp, hexp,
        TournamentValidator.validate_asset_selection, hban, ALL_MAPS]

/-- C4 witness: the amended statement at the unit-test fixture with
`"bind"` banned by `P1` and `P1` resubmitting the ban. -/
theorem duplicate_ban_spec_witness :
    TournamentValidator.validate_player_action
      { testState with maps_banned := [⟨"bind", "P1"⟩] } "P1" "BAN" "bind" =
      .error (.assetAlreadyBanned "bind" "P1") :=
  duplicate_ban_spec { testState with maps_banned := [⟨"bind", "P1"⟩] } "P1"
    rfl rfl (by decide) rfl (by decide)

/-! ### Projection theorems -/

/-- C6 counterexample: at `(MAP_PHASE, actionNumber 10)` the projection
falls back to the label `"MAP_PHASE"` while the validator computes
`"UNKNOWN"` — the two tables disagree inside the claimed domain. -/
theorem projection_fallback_counterexample :
    (transform_for_players { testState with action_number := 10 }).phase = "MAP_PHASE" ∧
    TournamentValidator.get_expected_action_type
      { testState with action_number := 10 } = "UNKNOWN" ∧
    (transform_for_players { testState with action_number := 10 }).phase ≠
      TournamentValidator.get_expected_action_type
        { testState with action_number := 10 } := by
  refine ⟨?_, ?_, ?_⟩ <;> decide

/-- C6 (amended): the participant-facing phase label of
`transform_for_players` equals the validator's expected action kind for
`MAP_PHASE` with `actionNumber` in `1..=9` and for `AGENT_PHASE` with
`actionNumber` in `1..=17`; for `MAP_PHASE` with `actionNumber ≥ 10` the
projection falls back to `"MAP_PHASE"` while the validator computes
`"UNKNOWN"`. -/
theorem projection_validator_agreement (s : TournamentState) :
    (s.current_phase = "MAP_PHASE" → 1 ≤ s.action_number → s.action_number ≤ 9 →
      (transform_for_players s).phase =
        TournamentValidator.get_expected_action_type s) ∧
    (s.current_phase = "AGENT_PHASE" → 1 ≤ s.action_number → s.action_number ≤ 17 →
      (transform_for_players s).phase =
        TournamentValidator.get_expected_action_type s) ∧
    (s.current_phase = "MAP_PHASE" → 10 ≤ s.action_number →
      (transform_for_players s).phase = "MAP_PHASE" ∧
      TournamentValidator.get_expected_action_type s = "UNKNOWN") := by
  refine ⟨?_, ?_, ?_⟩
  · intro hph h1 h9
    by_cases h6 : s.action_number ≤ 6
    · simp [transform_for_players, TournamentValidator.get_expected_action_type,
            hph, h6]
    · by_cases h8 : s.action_number ≤ 8
      · simp [transform_for_players, TournamentValidator.get_expected_action_type,
              hph, h6, h8]
      · have h9e : s.action_number = 9 := by omega
        simp [transform_for_players, TournamentValidator.get_expected_action_type,
              hph, h6, h8, h9e]
  · intro hph h1 h17
    by_cases h15 : s.action_number ≤ 15
    · simp [transform_for_players, TournamentValidator.get_expected_action_type,
            hph, h15]
    · simp [transform_for_players, TournamentValidator.get_expected_action_type,
            hph, h15, h17]
  · intro hph h10
    constructor
    · simp only [transform_for_players, hph, if_pos]
      rw [if_neg (by omega), if_neg (by omega), if_neg (by omega)]
    · simp only [TournamentValidator.get_expected_action_type, hph, if_pos]
      rw [if_neg (by omega), if_neg (by omega), if_neg (by omega)]

/-- C6 witness: at the fixture (`MAP_PHASE`, action 1) the projection
label and the validator's expected kind are both `MAP_BAN`. -/
theorem projection_validator_agreement_witness :
    (transform_for_players testState).phase =
      TournamentValidator.get_expected_action_type testState ∧
    (transform_for_players testState).phase = "MAP_BAN" :=
  ⟨(projection_validator_agreement testState).1 rfl (by decide) (by decide),
   by decide⟩

/-- The Boolean exclusion test used by `get_available_options` agrees
with plain list membership. -/
theorem exclusion_pred_eq (banned picked : List String) (m : String) :
    (!(banned.any (fun b => b == m)) && !(picked.any (fun p => p == m))) =
    decide (m ∉ banned ∧ m ∉ picked) := by
  rw [Bool.eq_iff_iff]
  simp only [Bool.and_eq_true, Bool.not_eq_true', List.any_eq_false, beq_iff_eq,
             decide_eq_true_eq]
  constructor
  · intro h
    exact ⟨fun hm => (h.1 m hm rfl), fun hm => (h.2 m hm rfl)⟩
  · intro h
    exact ⟨fun x hx he => h.1 (he ▸ hx), fun x hx he => h.2 (he ▸ hx)⟩

set_option maxRecDepth 8000

/-- C5: `get_available_options` returns, for `MAP_PHASE` action 9,
exactly the picked-map names; for any other `MAP_PHASE` action, the
12-map catalog minus every banned or picked name in catalog order (with
no bans/picks, the full catalog; after a single ban, 11 entries
excluding the banned name); for `AGENT_PHASE`, the agent catalog minus
banned agents and every role's current pick, in catalog order. -/
theorem available_options_spec (s : TournamentState) (b : AssetSelection) :
    (s.current_phase = "MAP_PHASE" → s.action_number = 9 →
      get_available_options s = s.maps_picked.map (fun pick => pick.name)) ∧
    (s.current_phase = "MAP_PHASE" → s.action_number ≠ 9 →
      get_available_options s = ALL_MAPS.filter (fun m =>
        decide (m ∉ s.maps_banned.map (fun ban => ban.name) ∧
                m ∉ s.maps_picked.map (fun pick => pick.name)))) ∧
    (s.current_phase = "AGENT_PHASE" →
      get_available_options s = ALL_AGENTS.filter (fun agent =>
        decide (agent ∉ s.agents_banned.map (fun ban => ban.name) ∧
                agent ∉ s.agent_picks.filterMap (fun kv => kv.2)))) ∧
    (s.current_phase = "MAP_PHASE" → s.action_number ≠ 9 →
      s.maps_banned = [] → s.maps_picked = [] →
      get_available_options s = ALL_MAPS) ∧
    (s.current_phase = "MAP_PHASE" → s.action_number ≠ 9 →
      s.maps_banned = [b] → s.maps_picked = [] → b.name ∈ ALL_MAPS →
      (get_available_options s).length = 11 ∧ b.name ∉ get_available_options s) := by
  refine ⟨?_, ?_, ?_, ?_, ?_⟩
  · intro h1 h2
    simp [get_available_options, h1, h2]
  · intro h1 h2
    simp only [get_available_options, ALL_MAPS, h1, if_pos, if_neg h2]
    exact List.filter_congr (fun m _ =>
      exclusion_pred_eq (s.maps_banned.map (fun ban => ban.name))
        (s.maps_picked.map (fun pick => pick.name)) m)
  · intro h1
    have h2 : ¬ s.current_phase = "MAP_PHASE" := by simp [h1]
    simp only [get_available_options, ALL_AGENTS, h1, h2, if_pos, if_false, if_neg h2]
    exact List.filter_congr (fun agent _ =>
      exclusion_pred_eq (s.agents_banned.map (fun ban => ban.name))
        (s.agent_picks.filterMap (fun kv => kv.2)) agent)
  · intro h1 h2 h3 h4
    simp [get_available_options, ALL_MAPS, h1, h2, h3, h4]
  · intro h1 h2 h3 h4 h5
    have key : get_available_options s = ALL_MAPS.filter (fun m => m != b.name) := by
      simp only [get_available_options, ALL_MAPS, h1, if_pos, if_neg h2, h3, h4,
                 List.map_cons, List.map_nil]
      exact List.filter_congr (fun m _ => by
        simp only [List.any_cons, List.any_nil, Bool.or_false, Bool.not_false,
                   Bool.and_true, bne]
        rw [Bool.eq_iff_iff]
        simp only [Bool.not_eq_true', beq_eq_false_iff_ne]
        exact ⟨Ne.symm, Ne.symm⟩)
    have hnd : ALL_MAPS.Nodup := by decide
    rw [key, ← List.Nodup.erase_eq_filter hnd b.name]
    refine ⟨?_, List.Nodup.not_mem_erase hnd⟩
    have h12 : ALL_MAPS.length = 12 := by decide
    rw [List.length_erase_of_mem h5, h12]

/-- C5 witness: at the fixture with one banned map, the options list is
the catalog minus that map; with none banned, the full catalog. -/
theorem available_options_spec_witness :
    get_available_options { testState with maps_banned := [⟨"bind", "P1"⟩] } =
      ["abyss", "ascent", "breeze", "corrode", "fracture",
       "haven", "icebox", "lotus", "pearl", "split", "sunset"] ∧
    (get_available_options { testState with maps_banned := [⟨"bind", "P1"⟩] }).length = 11 ∧
    "bind" ∉ get_available_options { testState with maps_banned := [⟨"bind", "P1"⟩] } ∧
    get_available_options testState = ALL_MAPS :=
  ⟨by decide,
   ((available_options_spec { testState with maps_banned := [⟨"bind", "P1"⟩] }
      ⟨"bind", "P1"⟩).2.2.2.2 rfl (by decide) rfl rfl (by decide)).1,
   ((available_options_spec { testState with maps_banned := [⟨"bind", "P1"⟩] }
      ⟨"bind", "P1"⟩).2.2.2.2 rfl (by decide) rfl rfl (by decide)).2,
   (available_options_spec testState ⟨"bind", "P1"⟩).2.2.2.1 rfl (by decide) rfl rfl⟩

/-! ### Timer theorems -/

/-- C7: `reset(newSeconds)` succeeds from every status and leaves the
timer `Ready` with `secondsRemaining = initialSeconds = n`, where `n` is
the supplied value when `Some` and the previous `initialSeconds` when
`None`; in particular `reset(Some 45)` yields `{Ready, 45, 45}`; and
reset installs a fresh, unsignalled stop channel, distinct from the
previous one. -/
theorem reset_timer_spec (s : TimerState) (seconds : Option Nat) :
    reset_timer s seconds =
      (.ok { status := .ready, seconds := seconds.getD s.initial_seconds,
             initial_seconds := seconds.getD s.initial_seconds },
       { status := .ready, seconds := seconds.getD s.initial_seconds,
         initial_seconds := seconds.getD s.initial_seconds,
         stop_generation := s.stop_generation + 1, stop_flag := false }) ∧
    (reset_timer s seconds).2.stop_generation ≠ s.stop_generation ∧
    (reset_timer s (some 45)).2 =
      { status := .ready, seconds := 45, initial_seconds := 45,
        stop_generation := s.stop_generation + 1, stop_flag := false } := by
  refine ⟨rfl, ?_, rfl⟩
  simp [reset_timer, TimerState.reset, TimerState.send_stop_signal]

/-- C8: `start_timer` errors and leaves the state untouched unless the
status is `Ready` or `Paused`, in which case it only flips the status to
`Running` (keeping `seconds`, so resume does not reset the count);
`pause_timer` errors and leaves the state untouched unless the status is
`Running`, in which case it flips the status to `Paused` keeping
`seconds`. -/
theorem start_pause_timer_spec (s : TimerState) :
    (s.status ≠ .ready → s.status ≠ .paused →
      ∃ msg, start_timer s = (.error msg, s)) ∧
    (s.status = .ready ∨ s.status = .paused →
      start_timer s =
        (.ok { status := .running, seconds := s.seconds,
               initial_seconds := s.initial_seconds },
         { s with status := .running })) ∧
    (s.status ≠ .running → ∃ msg, pause_timer s = (.error msg, s)) ∧
    (s.status = .running →
      pause_timer s =
        (.ok { status := .paused, seconds := s.seconds,
               initial_seconds := s.initial_seconds },
         { s with status := .paused, stop_flag := true })) := by
  refine ⟨?_, ?_, ?_, ?_⟩
  · intro h1 h2
    refine ⟨"Cannot start timer in " ++ s.status.debugName ++
            " state. Must be \x27ready\x27 or \x27paused\x27.", ?_⟩
    simp [start_timer, h1, h2]
  · intro h
    have h1 : ¬ (s.status ≠ .ready ∧ s.status ≠ .paused) := by
      rcases h with h | h <;> simp [h]
    simp [start_timer, h1, TimerState.snapshot]
  · intro h
    refine ⟨"Cannot pause timer in " ++ s.status.debugName ++
            " state. Must be \x27running\x27.", ?_⟩
    simp [pause_timer, h]
  · intro h
    simp [pause_timer, h, TimerState.snapshot, TimerState.send_stop_signal]

/-- C8 witness: from `Finished`, `start_timer` and `pause_timer` both
error without touching the state; from `Ready`, `start_timer` runs. -/
theorem start_pause_timer_spec_witness :
    (∃ msg, start_timer { status := .finished, seconds := 0, initial_seconds := 30,
                          stop_generation := 0, stop_flag := false } =
      (.error msg, { status := .finished, seconds := 0, initial_seconds := 30,
                     stop_generation := 0, stop_flag := false })) ∧
    (∃ msg, pause_timer { status := .finished, seconds := 0, initial_seconds := 30,
                          stop_generation := 0, stop_flag := false } =
      (.error msg, { status := .finished, seconds := 0, initial_seconds := 30,
                     stop_generation := 0, stop_flag := false })) ∧
    start_timer { status := .ready, seconds := 30, initial_seconds := 30,
                  stop_generation := 0, stop_flag := false } =
      (.ok { status := .running, seconds := 30, initial_seconds := 30 },
       { status := .running, seconds := 30, initial_seconds := 30,
         stop_generation := 0, stop_flag := false }) :=
  ⟨(start_pause_timer_spec _).1 (by decide) (by decide),
   (start_pause_timer_spec _).2.2.1 (by decide),
   (start_pause_timer_spec _).2.1 (Or.inl rfl)⟩

/-- C10: when the loop ticks with status `Running` and `seconds = 0`
(reachable by `reset(Some 0)` then `start()`), the iteration decrements
nothing, emits nothing, never reaches `Finished`, and does not break: any
number of further iterations leaves the state fixed with no events, so
the loop only ends via the stop signal or an external status change. -/
theorem timer_loop_zero_spec (s : TimerState)
    (h1 : s.status = .running) (h2 : s.seconds = 0) :
    timer_tick s = (s, [], false) ∧
    (∀ n, run_ticks n s = (s, [], false)) ∧
    (∀ s0 : TimerState,
      (start_timer (TimerState.reset s0 (some 0))).2.status = .running ∧
      (start_timer (TimerState.reset s0 (some 0))).2.seconds = 0) := by
  have htick : timer_tick s = (s, [], false) := by
    simp [timer_tick, h1, h2]
  refine ⟨htick, ?_, ?_⟩
  · intro n
    induction n with
    | zero => rfl
    | succ n ih => simp [run_ticks, htick, ih]
  · intro s0
    simp [start_timer, TimerState.reset, TimerState.send_stop_signal]

/-- C10 witness: the running-at-zero state obtained by
`reset(Some 0); start()` from a fresh timer is a fixed point of the tick
loop. -/
theorem timer_loop_zero_spec_witness :
    (start_timer (TimerState.reset (TimerState.new 30) (some 0))).2.status = .running ∧
    (start_timer (TimerState.reset (TimerState.new 30) (some 0))).2.seconds = 0 ∧
    run_ticks 5 (start_timer (TimerState.reset (TimerState.new 30) (some 0))).2 =
      ((start_timer (TimerState.reset (TimerState.new 30) (some 0))).2, [], false) :=
  ⟨by decide, by decide,
   (timer_loop_zero_spec _ (by decide) (by decide)).2.1 5⟩

/-! ### Participant-registry lemmas -/

namespace PlayerManager

theorem add_player_dup (pm : PlayerManager) (name sock : String) (now : Nat)
    (h : containsKV pm.players sock = true) :
    add_player pm name sock now = (.error "Socket already connected", pm) := by
  simp [add_player, h]

theorem add_player_full (pm : PlayerManager) (name sock : String) (now : Nat)
    (h : containsKV pm.players sock = false)
    (h1 : containsKV pm.assignments "P1" = true)
    (h2 : containsKV pm.assignments "P2" = true) :
    add_player pm name sock now = (.error "Tournament is full (2 players maximum)", pm) := by
  simp [add_player, h, h1, h2]

theorem add_player_p1 (pm : PlayerManager) (name sock : String) (now : Nat)
    (h : containsKV pm.players sock = false)
    (h1 : containsKV pm.assignments "P1" = false) :
    add_player pm name sock now =
      (.ok ⟨name, sock, some "P1", true, now⟩,
       { players := insertKV pm.players sock ⟨name, sock, some "P1", true, now⟩,
         assignments := insertKV pm.assignments "P1" sock }) := by
  simp [add_player, h, h1]

theorem add_player_p2 (pm : PlayerManager) (name sock : String) (now : Nat)
    (h : containsKV pm.players sock = false)
    (h1 : containsKV pm.assignments "P1" = true)
    (h2 : containsKV pm.assignments "P2" = false) :
    add_player pm name sock now =
      (.ok ⟨name, sock, some "P2", true, now⟩,
       { players := insertKV pm.players sock ⟨name, sock, some "P2", true, now⟩,
         assignments := insertKV pm.assignments "P2" sock }) := by
  simp [add_player, h, h1, h2]

theorem rolesOk_new : RolesOk PlayerManager.new := by
  constructor
  · intro sock p role hp
    simp [PlayerManager.new] at hp
  · intro role sock hs
    simp [PlayerManager.new] at hs

theorem rolesOk_insert (pm : PlayerManager) (sock pid : String) (info : PlayerInfo)
    (h : RolesOk pm) (hinfo : info.player_id = some pid)
    (hp : lookupKV pm.players sock = none)
    (ha : lookupKV pm.assignments pid = none) :
    RolesOk { players := insertKV pm.players sock info,
              assignments := insertKV pm.assignments pid sock } := by
  obtain ⟨h1, h2⟩ := h
  constructor
  · intro s2 p2 role2 hp2 hr2
    simp only [lookupKV_insertKV] at hp2 ⊢
    by_cases hs : s2 = sock
    · rw [if_pos hs] at hp2
      have hpi : info = p2 := by injection hp2
      have : role2 = pid := by
        have := hinfo ▸ (hpi ▸ hr2)
        injection this with h3
        exact h3.symm
      rw [if_pos this, hs]
    · rw [if_neg hs] at hp2
      have hold := h1 s2 p2 role2 hp2 hr2
      have hrp : role2 ≠ pid := by
        intro he
        rw [he, ha] at hold
        exact Option.noConfusion hold
      rw [if_neg hrp]
      exact hold
  · intro role2 s2 hs2
    simp only [lookupKV_insertKV] at hs2 ⊢
    by_cases hr : role2 = pid
    · rw [if_pos hr] at hs2
      have hss : sock = s2 := by injection hs2
      refine ⟨info, ?_, ?_⟩
      · rw [if_pos hss.symm]
      · rw [hinfo, hr]
    · rw [if_neg hr] at hs2
      obtain ⟨p, hpl, hpid2⟩ := h2 role2 s2 hs2
      have hs : s2 ≠ sock := by
        intro he
        rw [he, hp] at hpl
        exact Option.noConfusion hpl
      exact ⟨p, by rw [if_neg hs]; exact hpl, hpid2⟩

theorem rolesOk_add (pm : PlayerManager) (name sock : String) (now : Nat)
    (h : RolesOk pm) : RolesOk (add_player pm name sock now).2 := by
  cases hcp : containsKV pm.players sock with
  | true =>
    rw [add_player_dup pm name sock now hcp]
    exact h
  | false =>
    cases hc1 : containsKV pm.assignments "P1" with
    | false =>
      rw [add_player_p1 pm name sock now hcp hc1]
      exact rolesOk_insert pm sock "P1" _ h rfl
        (containsKV_false _ _ hcp) (containsKV_false _ _ hc1)
    | true =>
      cases hc2 : containsKV pm.assignments "P2" with
      | true =>
        rw [add_player_full pm name sock now hcp hc1 hc2]
        exact h
      | false =>
        rw [add_player_p2 pm name sock now hcp hc1 hc2]
        exact rolesOk_insert pm sock "P2" _ h rfl
          (containsKV_false _ _ hcp) (containsKV_false _ _ hc2)

theorem rolesOk_remove (pm : PlayerManager) (sock : String)
    (h : RolesOk pm) : RolesOk (remove_player_by_socket pm sock).2 := by
  obtain ⟨h1, h2⟩ := h
  cases hl : lookupKV pm.players sock with
  | none =>
    simp only [remove_player_by_socket, hl]
    exact ⟨h1, h2⟩
  | some p =>
    simp only [remove_player_by_socket, hl]
    cases hpid : p.player_id with
    | none =>
      constructor
      · intro s2 p2 role2 hp2 hr2
        simp only [lookupKV_eraseKV] at hp2
        by_cases hs : s2 = sock
        · rw [if_pos hs] at hp2
          exact Option.noConfusion hp2
        · rw [if_neg hs] at hp2
          exact h1 s2 p2 role2 hp2 hr2
      · intro role2 s2 hs2
        obtain ⟨q, hq, hqr⟩ := h2 role2 s2 hs2
        have hs : s2 ≠ sock := by
          intro he
          rw [he, hl] at hq
          have : p = q := by injection hq
          rw [← this, hpid] at hqr
          exact Option.noConfusion hqr
        refine ⟨q, ?_, hqr⟩
        simp only [lookupKV_eraseKV]
        rw [if_neg hs]
        exact hq
    | some pr =>
      constructor
      · intro s2 p2 role2 hp2 hr2
        simp only [lookupKV_eraseKV] at hp2 ⊢
        by_cases hs : s2 = sock
        · rw [if_pos hs] at hp2
          exact Option.noConfusion hp2
        · rw [if_neg hs] at hp2
          have hold := h1 s2 p2 role2 hp2 hr2
          have hrp : role2 ≠ pr := by
            intro he
            have hpsock := h1 sock p pr hl hpid
            rw [he] at hold
            rw [hold] at hpsock
            have : s2 = sock := by injection hpsock
            exact hs this
          rw [if_neg hrp]
          exact hold
      · intro role2 s2 hs2
        simp only [lookupKV_eraseKV] at hs2 ⊢
        by_cases hr : role2 = pr
        · rw [if_pos hr] at hs2
          exact Option.noConfusion hs2
        · rw [if_neg hr] at hs2
          obtain ⟨q, hq, hqr⟩ := h2 role2 s2 hs2
          have hs : s2 ≠ sock := by
            intro he
            rw [he, hl] at hq
            have : p = q := by injection hq
            rw [← this, hpid] at hqr
            have : role2 = pr := by injection hqr with h3; exact h3.symm
            exact hr this
          refine ⟨q, ?_, hqr⟩
          rw [if_neg hs]
          exact hq

theorem rolesOk_disconnect (pm : PlayerManager) :
    RolesOk (disconnect_all_players pm) := by
  constructor
  · intro sock p role hp
    simp [disconnect_all_players] at hp
  · intro role sock hs
    simp [disconnect_all_players] at hs

theorem reachable_rolesOk (pm : PlayerManager) (h : Reachable pm) : RolesOk pm := by
  induction h with
  | new => exact rolesOk_new
  | add pm name sock now _ ih => exact rolesOk_add pm name sock now ih
  | remove pm sock _ ih => exact rolesOk_remove pm sock ih
  | disconnectAll pm _ _ => exact rolesOk_disconnect pm

theorem add_results_full (pm : PlayerManager) (l : List (String × String))
    (h1 : containsKV pm.assignments "P1" = true)
    (h2 : containsKV pm.assignments "P2" = true)
    (hfresh : ∀ z ∈ l, containsKV pm.players z.2 = false) :
    add_results pm l =
      l.map (fun _ => .error "Tournament is full (2 players maximum)") := by
  induction l with
  | nil => rfl
  | cons z t ih =>
    obtain ⟨zn, zs⟩ := z
    have hz := hfresh (zn, zs) (List.mem_cons_self _ _)
    have e := add_player_full pm zn zs 0 hz h1 h2
    simp only [add_results, e, List.map_cons]
    exact congrArg (fun rest => _ :: rest)
      (ih (fun w hw => hfresh w (List.mem_cons_of_mem _ hw)))

end PlayerManager

/-- C9: in every registry state reachable by `add_player`,
`remove_player_by_socket` and `disconnect_all_players`, at most one
stored record carries role `P1`, at most one carries role `P2`, and
every assignment entry names a socket whose stored record carries that
same role. -/
theorem registry_role_invariant (pm : PlayerManager)
    (h : PlayerManager.Reachable pm) :
    (∀ s1 s2 p1 p2, lookupKV pm.players s1 = some p1 →
      lookupKV pm.players s2 = some p2 →
      p1.player_id = some "P1" → p2.player_id = some "P1" → s1 = s2) ∧
    (∀ s1 s2 p1 p2, lookupKV pm.players s1 = some p1 →
      lookupKV pm.players s2 = some p2 →
      p1.player_id = some "P2" → p2.player_id = some "P2" → s1 = s2) ∧
    (∀ role sock, lookupKV pm.assignments role = some sock →
      ∃ p, lookupKV pm.players sock = some p ∧ p.player_id = some role) := by
  obtain ⟨h1, h2⟩ := PlayerManager.reachable_rolesOk pm h
  refine ⟨?_, ?_, h2⟩
  all_goals
    intro s1 s2 p1 p2 hp1 hp2 hr1 hr2
    have e1 := h1 s1 p1 _ hp1 hr1
    have e2 := h1 s2 p2 _ hp2 hr2
    rw [e1] at e2
    injection e2

/-- C9 witness: the invariant instantiated at the reachable state with
one registered player. -/
theorem registry_role_invariant_witness :
    PlayerManager.Reachable
      (PlayerManager.add_player PlayerManager.new "Alice" "s1" 0).2 ∧
    (∀ role sock,
      lookupKV (PlayerManager.add_player PlayerManager.new "Alice" "s1" 0).2.assignments
        role = some sock →
      ∃ p, lookupKV (PlayerManager.add_player PlayerManager.new "Alice" "s1" 0).2.players
        sock = some p ∧ p.player_id = some role) :=
  have hreach : PlayerManager.Reachable
      (PlayerManager.add_player PlayerManager.new "Alice" "s1" 0).2 :=
    PlayerManager.Reachable.add PlayerManager.new "Alice" "s1" 0
      PlayerManager.Reachable.new
  ⟨hreach, (registry_role_invariant _ hreach).2.2⟩

/-- C3: `add_player` rejects a duplicate connection id leaving the
registry unchanged; otherwise rejects with session-full when both roles
are taken, leaving the registry unchanged; otherwise assigns the lowest
unassigned role (`P1` before `P2`) and stores the record. Consequently,
for any sequence of registrations with distinct connection ids from a
fresh registry, the 1st caller receives `P1`, the 2nd receives `P2`, and
every later caller is rejected with session-full; and after the holder
of `P1` is removed from a reachable registry, the next registration with
a fresh connection id receives `P1`. -/
theorem add_player_spec
    (pm : PlayerManager) (name socket_id : String) (now : Nat)
    (x y : String × String) (t : List (String × String))
    (pm2 : PlayerManager) (sock2 name2 id2 : String) (now2 : Nat) :
    (containsKV pm.players socket_id = true →
      PlayerManager.add_player pm name socket_id now =
        (.error "Socket already connected", pm)) ∧
    (containsKV pm.players socket_id = false →
      containsKV pm.assignments "P1" = true →
      containsKV pm.assignments "P2" = true →
      PlayerManager.add_player pm name socket_id now =
        (.error "Tournament is full (2 players maximum)", pm)) ∧
    (containsKV pm.players socket_id = false →
      containsKV pm.assignments "P1" = false →
      PlayerManager.add_player pm name socket_id now =
        (.ok ⟨name, socket_id, some "P1", true, now⟩,
         { players := insertKV pm.players socket_id
             ⟨name, socket_id, some "P1", true, now⟩,
           assignments := insertKV pm.assignments "P1" socket_id })) ∧
    (containsKV pm.players socket_id = false →
      containsKV pm.assignments "P1" = true →
      containsKV pm.assignments "P2" = false →
      PlayerManager.add_player pm name socket_id now =
        (.ok ⟨name, socket_id, some "P2", true, now⟩,
         { players := insertKV pm.players socket_id
             ⟨name, socket_id, some "P2", true, now⟩,
           assignments := insertKV pm.assignments "P2" socket_id })) ∧
    (((x :: y :: t).map Prod.snd).Nodup →
      (PlayerManager.add_results PlayerManager.new (x :: y :: t)).head? =
        some (.ok ⟨x.1, x.2, some "P1", true, 0⟩)) ∧
    (((x :: y :: t).map Prod.snd).Nodup →
      (PlayerManager.add_results PlayerManager.new (x :: y :: t))[1]? =
        some (.ok ⟨y.1, y.2, some "P2", true, 0⟩)) ∧
    (((x :: y :: t).map Prod.snd).Nodup →
      ∀ r ∈ (PlayerManager.add_results PlayerManager.new (x :: y :: t)).drop 2,
        r = .error "Tournament is full (2 players maximum)") ∧
    (PlayerManager.Reachable pm2 →
      lookupKV pm2.assignments "P1" = some sock2 →
      containsKV (PlayerManager.remove_player_by_socket pm2 sock2).2.players id2 = false →
      (PlayerManager.add_player
        (PlayerManager.remove_player_by_socket pm2 sock2).2 name2 id2 now2).1 =
        .ok ⟨name2, id2, some "P1", true, now2⟩) := by
  obtain ⟨xn, xs⟩ := x
  obtain ⟨yn, ys⟩ := y
  have e1 := PlayerManager.add_player_p1 PlayerManager.new xn xs 0 rfl rfl
  refine ⟨PlayerManager.add_player_dup pm name socket_id now,
          PlayerManager.add_player_full pm name socket_id now,
          PlayerManager.add_player_p1 pm name socket_id now,
          PlayerManager.add_player_p2 pm name socket_id now,
          ?_, ?_, ?_, ?_⟩
  · intro _
    simp only [PlayerManager.add_results, e1, List.head?]
  · intro hnd
    rw [List.map_cons, List.map_cons] at hnd
    have hx_not := (List.nodup_cons.mp hnd).1
    have hxy : xs ≠ ys := fun he => hx_not (he ▸ List.mem_cons_self _ _)
    have hcp : containsKV (insertKV PlayerManager.new.players xs
        ⟨xn, xs, some "P1", true, 0⟩) ys = false := by
      simp [containsKV, insertKV, eraseKV, PlayerManager.new, hxy]
    have hc1 : containsKV (insertKV PlayerManager.new.assignments "P1" xs) "P1" = true := by
      simp [containsKV, insertKV, eraseKV, PlayerManager.new]
    have hc2 : containsKV (insertKV PlayerManager.new.assignments "P1" xs) "P2" = false := by
      simp [containsKV, insertKV, eraseKV, PlayerManager.new]
    have e2 := PlayerManager.add_player_p2
      ⟨insertKV PlayerManager.new.players xs ⟨xn, xs, some "P1", true, 0⟩,
       insertKV PlayerManager.new.assignments "P1" xs⟩ yn ys 0 hcp hc1 hc2
    simp only [PlayerManager.add_results, e1, e2]
    simp [List.getElem?_cons_succ, List.getElem?_cons_zero]
  · intro hnd
    rw [List.map_cons, List.map_cons] at hnd
    have hx_not := (List.nodup_cons.mp hnd).1
    have hrest := (List.nodup_cons.mp hnd).2
    have hy_not := (List.nodup_cons.mp hrest).1
    have hxy : xs ≠ ys := fun he => hx_not (he ▸ List.mem_cons_self _ _)
    have hxt : xs ∉ t.map Prod.snd := fun hm => hx_not (List.mem_cons_of_mem _ hm)
    have hcp : containsKV (insertKV PlayerManager.new.players xs
        ⟨xn, xs, some "P1", true, 0⟩) ys = false := by
      simp [containsKV, insertKV, eraseKV, PlayerManager.new, hxy]
    have hc1 : containsKV (insertKV PlayerManager.new.assignments "P1" xs) "P1" = true := by
      simp [containsKV, insertKV, eraseKV, PlayerManager.new]
    have hc2 : containsKV (insertKV PlayerManager.new.assignments "P1" xs) "P2" = false := by
      simp [containsKV, insertKV, eraseKV, PlayerManager.new]
    have e2 := PlayerManager.add_player_p2
      ⟨insertKV PlayerManager.new.players xs ⟨xn, xs, some "P1", true, 0⟩,
       insertKV PlayerManager.new.assignments "P1" xs⟩ yn ys 0 hcp hc1 hc2
    have hP1 : containsKV (insertKV (insertKV PlayerManager.new.assignments "P1" xs)
        "P2" ys) "P1" = true := by
      simp [containsKV, insertKV, eraseKV, PlayerManager.new]
    have hP2 : containsKV (insertKV (insertKV PlayerManager.new.assignments "P1" xs)
        "P2" ys) "P2" = true := by
      simp [containsKV, insertKV, eraseKV, PlayerManager.new]
    have hfr : ∀ z ∈ t, containsKV (insertKV (insertKV PlayerManager.new.players xs
        ⟨xn, xs, some "P1", true, 0⟩) ys ⟨yn, ys, some "P2", true, 0⟩) z.2 = false := by
      intro z hz
      have hz2 : z.2 ∈ t.map Prod.snd := List.mem_map_of_mem _ hz
      have hyz : ys ≠ z.2 := fun he => hy_not (he ▸ hz2)
      have hxz : xs ≠ z.2 := fun he => hxt (he ▸ hz2)
      simp [containsKV, insertKV, eraseKV, PlayerManager.new, hxy, hyz, hxz]
    have efull := PlayerManager.add_results_full
      ⟨insertKV (insertKV PlayerManager.new.players xs ⟨xn, xs, some "P1", true, 0⟩)
         ys ⟨yn, ys, some "P2", true, 0⟩,
       insertKV (insertKV PlayerManager.new.assignments "P1" xs) "P2" ys⟩
      t hP1 hP2 hfr
    have hmain : PlayerManager.add_results PlayerManager.new ((xn, xs) :: (yn, ys) :: t) =
        .ok ⟨xn, xs, some "P1", true, 0⟩ :: .ok ⟨yn, ys, some "P2", true, 0⟩ ::
          t.map (fun _ => .error "Tournament is full (2 players maximum)") := by
      simp only [PlayerManager.add_results, e1, e2]
      exact congrArg (fun rest => _ :: _ :: rest) efull
    intro r hr
    rw [hmain] at hr
    have hr2 : r ∈ t.map
        (fun _ => (.error "Tournament is full (2 players maximum)" :
          Except String PlayerInfo)) := hr
    obtain ⟨a, _, he⟩ := List.mem_map.mp hr2
    exact he.symm
  · intro hreach hlook hfresh2
    obtain ⟨h1r, h2r⟩ := PlayerManager.reachable_rolesOk pm2 hreach
    obtain ⟨p, hp, hpid⟩ := h2r "P1" sock2 hlook
    have hrem : (PlayerManager.remove_player_by_socket pm2 sock2).2 =
        { players := eraseKV pm2.players sock2,
          assignments := eraseKV pm2.assignments "P1" } := by
      simp [PlayerManager.remove_player_by_socket, hp, hpid]
    have hc1 : containsKV (PlayerManager.remove_player_by_socket pm2 sock2).2.assignments
        "P1" = false := by
      rw [hrem]
      simp [containsKV]
    rw [PlayerManager.add_player_p1 _ name2 id2 now2 hfresh2 hc1]

/-- C3 witness: three distinct registrations from a fresh registry give
`P1`, `P2`, session-full; after removing the `P1` holder a new
registration receives `P1` again. -/
theorem add_player_spec_witness :
    PlayerManager.add_results PlayerManager.new
        [("Alice", "s1"), ("Bob", "s2"), ("Charlie", "s3")] =
      [.ok ⟨"Alice", "s1", some "P1", true, 0⟩,
       .ok ⟨"Bob", "s2", some "P2", true, 0⟩,
       .error "Tournament is full (2 players maximum)"] ∧
    (PlayerManager.add_player
      (PlayerManager.remove_player_by_socket
        (PlayerManager.add_player
          (PlayerManager.add_player PlayerManager.new "Alice" "s1" 0).2
          "Bob" "s2" 0).2 "s1").2 "Dana" "s4" 7).1 =
      .ok ⟨"Dana", "s4", some "P1", true, 7⟩ :=
  have hreach : PlayerManager.Reachable
      (PlayerManager.add_player
        (PlayerManager.add_player PlayerManager.new "Alice" "s1" 0).2 "Bob" "s2" 0).2 :=
    PlayerManager.Reachable.add _ "Bob" "s2" 0
      (PlayerManager.Reachable.add PlayerManager.new "Alice" "s1" 0
        PlayerManager.Reachable.new)
  ⟨by decide,
   (add_player_spec PlayerManager.new "" "" 0 ("Alice", "s1") ("Bob", "s2") []
      _ "s1" "Dana" "s4" 7).2.2.2.2.2.2.2 hreach (by decide) (by decide)⟩

end Valo
